import Mathlib

/-!
Shallow embedding of the housing-prices training pipeline (`app/train.py`)
and proofs of its specified properties.

The pipeline is sequential glue around external libraries (pandas, sklearn,
sqlalchemy, mlflow).  The repository's own code is embedded directly; the
external library calls on its boundary (the seeded shuffle of
`train_test_split`, the database engine, the tracking client, `fit` and
`predict`) are modelled as explicit parameters or as deterministic functions
faithful to their documented behaviour, as the spec treats them: black boxes
with a defined call contract.

Error taxonomy: the Python code raises `ValueError` / `RuntimeError`; the
spec names these by role.  `MLError` below uses the spec's role names, with
the mapping: `ValueError` in `load_data` = configurationError, wrapped
`RuntimeError` in `load_data` = dataAccessError, `ValueError` in
`preprocess_data` = schemaError, `ValueError` in `train_model` /
`log_model` argument checks = invalidArgument, wrapped `RuntimeError` from
`fit` = trainingError, and the `ValueError` sklearn raises when the train
partition would be empty = emptyTrainError.
-/

inductive MLError where
  | configurationError
  | dataAccessError
  | schemaError
  | invalidArgument
  | trainingError
  | emptyTrainError
deriving DecidableEq, Repr

/-- A pandas DataFrame of the shapes this pipeline touches: named columns
and rows of numeric cells (the housing features and target are
numeric/boolean, modelled as `Int`).  (The `id` index column is implicit,
as in the source, which sets it aside via `index_col` before any of the
operations embedded here run). -/
structure DataFrame where
  cols : List String
  rows : List (List Int)
deriving DecidableEq, Repr

/-- `target_variable = "price"` from `preprocess_data`. -/
def target_variable : String := "price"

/-- One row after `drop([c], axis=1)`: the entries whose column label
differs from `c`, in order. -/
def dropRowEntries (cols : List String) (c : String) (r : List Int) : List Int :=
  (cols.zip r).filterMap (fun p => if p.1 = c then none else some p.2)

/-- `dataset.drop([c], axis=1)`: removes every column labelled `c`,
returning a new frame. -/
def dropCol (d : DataFrame) (c : String) : DataFrame :=
  ⟨d.cols.filter (fun x => x ≠ c), d.rows.map (dropRowEntries d.cols c)⟩

/-- `X.set_axis(names, axis=1)`: renames the columns positionally,
raising `ValueError` (here `none`) when the number of names does not
match the number of columns. -/
def set_axis (d : DataFrame) (names : List String) : Option DataFrame :=
  if names.length = d.cols.length then some ⟨names, d.rows⟩ else none

/-- `dataset[c]`: the values of the (first) column labelled `c`. -/
def getCol (d : DataFrame) (c : String) : List Int :=
  d.rows.map (fun r => r.getD (d.cols.findIdx (fun x => x = c)) 0)

/-- The fixed canonical feature names from `preprocess_data`. -/
def canonicalNames : List String :=
  ["square_feet", "num_bedrooms", "num_bathrooms", "num_floors",
   "year_built", "has_garden", "has_pool", "garage_size",
   "location_score", "distance_to_center"]

/-- Modelled from the spec: the pseudo-random generator behind
`train_test_split(..., random_state=3)`.  sklearn's Mersenne-Twister
internals are an external library outside this repository; the spec only
requires a partition fully determined by the fixed seed, realized here by
a linear congruential step. -/
def lcgNext (s : Nat) : Nat := (1664525 * s + 1013904223) % 4294967296

/-- Modelled from the spec: the seeded shuffle of `train_test_split`.
Draws without replacement from `pool` using the generator state `s`,
producing a permutation of `pool`; the fuel equals the pool length at the
top-level call. -/
def drawPermFuel : Nat → Nat → List Nat → List Nat
  | 0, _, _ => []
  | f + 1, s, pool =>
    match pool with
    | [] => []
    | _ :: _ =>
      let s2 := lcgNext s
      let k := s2 % pool.length
      pool.getD k 0 :: drawPermFuel f s2 (pool.eraseIdx k)

/-- The permutation of row positions `0..n-1` fixed by `random_state=3`. -/
def splitPerm (n : Nat) : List Nat := drawPermFuel n 3 (List.range n)

/-- `n_test = ceil(test_size * n_samples)` with `test_size=0.2`, as sklearn
computes it for a float `test_size`. -/
def nTest (n : Nat) : Nat := (n + 4) / 5

/-- The integer nearest to `0.2 * n` (0.2·n never falls on a half, so
rounding is unambiguous). -/
def nearestFifth (n : Nat) : Nat := (2 * n + 5) / 10

/-- `X.iloc[idxs]`: the rows of `d` at the given positions. -/
def selectRows (d : DataFrame) (idxs : List Nat) : DataFrame :=
  ⟨d.cols, idxs.map (fun i => d.rows.getD i [])⟩

/-- `y.iloc[idxs]`. -/
def selectVals (y : List Int) (idxs : List Nat) : List Int :=
  idxs.map (fun i => y.getD i 0)

/-- Modelled from the spec: `train_test_split(X, y, test_size=0.2,
random_state=3)` of sklearn (external to the repository).  Checks that
`X` and `y` agree in length, takes `ceil(0.2·n)` test rows, raises
`ValueError` when the train partition would be empty, and otherwise
splits both `X` and `y` along one seed-determined permutation: test
indices first, train indices after. -/
def train_test_split (X : DataFrame) (y : List Int) :
    Except MLError (DataFrame × DataFrame × List Int × List Int) :=
  if X.rows.length ≠ y.length then .error .emptyTrainError
  else if X.rows.length - nTest X.rows.length = 0 then .error .emptyTrainError
  else
    .ok (selectRows X ((splitPerm X.rows.length).drop (nTest X.rows.length)),
         selectRows X ((splitPerm X.rows.length).take (nTest X.rows.length)),
         selectVals y ((splitPerm X.rows.length).drop (nTest X.rows.length)),
         selectVals y ((splitPerm X.rows.length).take (nTest X.rows.length)))

/-- `preprocess_data(dataset)` from `app/train.py`: checks for the target
column, drops it to form the feature matrix, positionally renames the
features to the canonical names (`ValueError` = schemaError on a count
mismatch), selects the target vector, and splits 80/20 with seed 3. -/
def preprocess_data (dataset : DataFrame) :
    Except MLError (DataFrame × DataFrame × List Int × List Int) :=
  if target_variable ∈ dataset.cols then
    match set_axis (dropCol dataset target_variable) canonicalNames with
    | none => .error .schemaError
    | some X2 => train_test_split X2 (getCol dataset target_variable)
  else .error .schemaError

/-! ### State-threaded preprocessing, for the frame condition -/

/-- `dataset.drop([c], axis=1)` with its effect on the receiver made
explicit: pandas `drop` (without `inplace`) builds a new frame and leaves
the receiver as it was. -/
def dropColTracked (d : DataFrame) (c : String) : DataFrame × DataFrame :=
  (dropCol d c, d)

/-- `X.set_axis(names, axis=1)` with its effect on the receiver made
explicit: returns a renamed copy, receiver unchanged. -/
def setAxisTracked (d : DataFrame) (names : List String) :
    Option DataFrame × DataFrame :=
  (set_axis d names, d)

/-- `dataset[c]` with its effect on the receiver made explicit: column
selection reads, never writes. -/
def getColTracked (d : DataFrame) (c : String) : List Int × DataFrame :=
  (getCol d c, d)

/-- `preprocess_data` with the `dataset` argument threaded through every
operation that touches it; the second component is the state of the
caller's dataset object when the call returns (or raises). -/
def preprocess_data_tracked (dataset : DataFrame) :
    Except MLError (DataFrame × DataFrame × List Int × List Int) × DataFrame :=
  if target_variable ∈ dataset.cols then
    let p1 := dropColTracked dataset target_variable
    match setAxisTracked p1.1 canonicalNames with
    | (none, _) => (.error .schemaError, p1.2)
    | (some X2, _) =>
      let p2 := getColTracked p1.2 target_variable
      (train_test_split X2 p2.1, p2.2)
  else (.error .schemaError, dataset)

/-! ### Pipeline builder and trainer -/

inductive EstimatorStep where
  | standardScaler
  | lasso
deriving DecidableEq, Repr

structure Pipeline where
  steps : List (String × EstimatorStep)
  verbose : Bool
deriving DecidableEq, Repr

/-- `create_pipeline()` from `app/train.py`. -/
def create_pipeline : Pipeline :=
  ⟨[("standard_scaler", EstimatorStep.standardScaler),
    ("lasso", EstimatorStep.lasso)], true⟩

/-- A Python value passed for `param_grid`: `isinstance(param_grid, dict)`
separates the dict case from everything else. -/
inductive PyVal where
  | dict (entries : List (String × List Int))
  | str (s : String)
  | pyNone
deriving DecidableEq, Repr

def PyVal.isDict : PyVal → Bool
  | .dict _ => true
  | _ => false

/-- The grid-search object `GridSearchCV(pipeline, param_grid, cv=cv,
scoring="r2")`, with a flag recording whether `fit` completed. -/
structure GridSearchCV where
  estimator : Pipeline
  param_grid : List (String × List Int)
  cv : Nat
  scoring : String
  fitted : Bool
deriving DecidableEq, Repr

inductive TrainEvent where
  | gridSearchBuilt
  | fitCalled
deriving DecidableEq, Repr

/-- `train_model(pipeline, X_train, y_train, param_grid, cv=3)` from
`app/train.py`.  `fitOutcome` stands for the external `model.fit(X_train,
y_train)` call (its numerical internals are outside the repository); a
raising fit is wrapped as a `RuntimeError` = trainingError.  Returns the
result, the caller's pipeline object afterwards, and the trace of
grid-search events. -/
def train_model (pipeline : Pipeline) (X_train : DataFrame)
    (y_train : List Int) (param_grid : PyVal) (cv : Nat)
    (fitOutcome : Except String Unit) :
    Except MLError GridSearchCV × Pipeline × List TrainEvent :=
  match param_grid with
  | .dict g =>
    let model : GridSearchCV := ⟨pipeline, g, cv, "r2", false⟩
    match fitOutcome with
    | .error _ =>
      (.error .trainingError, pipeline, [.gridSearchBuilt, .fitCalled])
    | .ok _ =>
      (.ok { model with fitted := true }, pipeline,
       [.gridSearchBuilt, .fitCalled])
  | _ => (.error .invalidArgument, pipeline, [])

/-! ### Model logger -/

/-- A Python exception reaching `log_model`'s handlers: an
`MlflowException` from the tracking client, or any other `Exception`
(prediction failures included). -/
inductive PyExc where
  | mlflowException (msg : String)
  | otherError (msg : String)
deriving DecidableEq, Repr

/-- The warning `log_model` prints for a caught exception, per handler. -/
def warnMessage : PyExc → String
  | .mlflowException m => "⚠️ Model logging failed: " ++ m
  | .otherError m => "⚠️ Unexpected error during model logging: " ++ m

/-- `log_model(model, X_train, artifact_path, registered_model_name)` from
`app/train.py`: validates the two names (Python falsiness of a string is
emptiness), then runs prediction and the tracking-client call.
`predictOutcome` stands for the external `model.predict(X_train)` and
`logOutcome` for `mlflow.sklearn.log_model(...)` with the inferred
signature.  Returns the list of warnings printed; every exception raised
after validation is caught and becomes a warning. -/
def log_model (model : GridSearchCV) (X_train : DataFrame)
    (artifact_path registered_model_name : String)
    (predictOutcome : Except PyExc (List Int))
    (logOutcome : List Int → Except PyExc Unit) :
    Except MLError (List String) :=
  if artifact_path = "" ∨ registered_model_name = "" then
    .error .invalidArgument
  else
    match predictOutcome with
    | .error e => .ok [warnMessage e]
    | .ok preds =>
      match logOutcome preds with
      | .error e => .ok [warnMessage e]
      | .ok _ => .ok []

/-! ### Data loader -/

inductive LoadEvent where
  | engineCreated
  | disposed
deriving DecidableEq, Repr

/-- Whether the sqlalchemy engine currently holds its resources. -/
structure EngineState where
  acquired : Bool
deriving DecidableEq, Repr

/-- `create_engine(db_uri, echo=True)` acquires the engine. -/
def createEngine (s : EngineState) : EngineState := { s with acquired := true }

/-- `engine.dispose()` releases the engine; in `load_data` it sits inside
its own try/except whose handler passes, so a raising dispose still
releases and never propagates. -/
def disposeEngine (s : EngineState) : EngineState := { s with acquired := false }

/-- `load_data()` from `app/train.py`.  `db_uri` is `os.getenv("DB_URI")`
(`none` = unset); `queryOutcome` stands for the external
`engine.connect()` + `pd.read_sql(...)` block (a failure of either lands
in the same handler), and the ignored `_disposeOutcome` for the
swallowed result of `engine.dispose()`.  Returns the result, the engine
state at return (initially nothing is held before `create_engine`), and
the trace of resource events. -/
def load_data (db_uri : Option String)
    (queryOutcome : Except String DataFrame)
    (_disposeOutcome : Except String Unit) :
    Except MLError DataFrame × EngineState × List LoadEvent :=
  let s0 : EngineState := ⟨false⟩
  match db_uri with
  | none => (.error .configurationError, s0, [])
  | some u =>
    if u = "" then (.error .configurationError, s0, [])
    else
      let s1 := createEngine s0
      match queryOutcome with
      | .ok df =>
        let s2 := disposeEngine s1
        (.ok df, s2, [.engineCreated, .disposed])
      | .error _ =>
        let s2 := disposeEngine s1
        (.error .dataAccessError, s2, [.engineCreated, .disposed])

/-! ### Basic lemmas about the embedded operations -/

lemma drawPermFuel_length (f : Nat) :
    ∀ (s : Nat) (pool : List Nat), pool.length ≤ f →
      (drawPermFuel f s pool).length = pool.length := by
  induction f with
  | zero =>
    intro s pool h
    cases pool with
    | nil => rfl
    | cons a t => simp at h
  | succ f ih =>
    intro s pool h
    cases pool with
    | nil => rfl
    | cons a t =>
      have hk : lcgNext s % (t.length + 1) < t.length + 1 :=
        Nat.mod_lt _ (Nat.succ_pos _)
      have hlen : ((a :: t).eraseIdx (lcgNext s % (t.length + 1))).length
          = t.length := by
        rw [List.length_eraseIdx_of_lt (by simpa using hk)]
        simp
      simp only [drawPermFuel, List.length_cons]
      rw [ih _ _ (by rw [hlen]; simpa using Nat.le_of_succ_le_succ h), hlen]

lemma splitPerm_length (n : Nat) : (splitPerm n).length = n := by
  unfold splitPerm
  rw [drawPermFuel_length _ _ _ (by simp)]
  simp

lemma dropCol_rows_length (d : DataFrame) (c : String) :
    (dropCol d c).rows.length = d.rows.length := by
  simp [dropCol]

lemma getCol_length (d : DataFrame) (c : String) :
    (getCol d c).length = d.rows.length := by
  simp [getCol]

/-- The feature matrix after the successful positional rename. -/
def featFrame (d : DataFrame) : DataFrame :=
  ⟨canonicalNames, (dropCol d target_variable).rows⟩

/-- The row positions sent to the test partition of dataset `d`. -/
def testIdx (d : DataFrame) : List Nat :=
  (splitPerm d.rows.length).take (nTest d.rows.length)

/-- The row positions sent to the train partition of dataset `d`. -/
def trainIdx (d : DataFrame) : List Nat :=
  (splitPerm d.rows.length).drop (nTest d.rows.length)

/-- Characterization of a successful `preprocess_data` call: the target
column was present, the feature count matched the canonical names, the
train partition is non-empty, and the result is the seed-3 partition of
the renamed feature matrix and the target vector. -/
lemma preprocess_data_ok_elim {d : DataFrame}
    {r : DataFrame × DataFrame × List Int × List Int}
    (h : preprocess_data d = .ok r) :
    target_variable ∈ d.cols ∧
    canonicalNames.length = (dropCol d target_variable).cols.length ∧
    nTest d.rows.length < d.rows.length ∧
    r = (selectRows (featFrame d) (trainIdx d),
         selectRows (featFrame d) (testIdx d),
         selectVals (getCol d target_variable) (trainIdx d),
         selectVals (getCol d target_variable) (testIdx d)) := by
  unfold preprocess_data at h
  split at h
  case isTrue hmem =>
    split at h
    case h_1 heq => exact absurd h (by simp)
    case h_2 X2 heq =>
      unfold set_axis at heq
      split at heq
      case isFalse => exact absurd heq (by simp)
      case isTrue hlen =>
        have hX2 : X2 = featFrame d := by
          have := Option.some.inj heq
          rw [← this]
          rfl
        subst hX2
        have hrows : (featFrame d).rows.length = d.rows.length := by
          simp [featFrame, dropCol_rows_length]
        unfold train_test_split at h
        split at h
        case isTrue => exact absurd h (by simp)
        case isFalse hniq =>
          split at h
          case isTrue => exact absurd h (by simp)
          case isFalse hpos =>
            rw [hrows] at hpos h
            refine ⟨hmem, hlen, by omega, ?_⟩
            exact (Except.ok.inj h).symm
  case isFalse hmem => exact absurd h (by simp)

/-- Equality of embedded call results is decidable, so that the concrete
witnesses below can be checked by evaluation. -/
instance exceptDecEq {ε α : Type} [DecidableEq ε] [DecidableEq α] :
    DecidableEq (Except ε α) := fun a b =>
  match a, b with
  | .error e1, .error e2 =>
    if h : e1 = e2 then .isTrue (by rw [h])
    else .isFalse (fun hh => h (Except.error.inj hh))
  | .error _, .ok _ => .isFalse (fun hh => Except.noConfusion hh)
  | .ok _, .error _ => .isFalse (fun hh => Except.noConfusion hh)
  | .ok x, .ok y =>
    if h : x = y then .isTrue (by rw [h])
    else .isFalse (fun hh => h (Except.ok.inj hh))

/-! ### Concrete fixtures -/

/-- A well-formed 2-row housing dataset: ten feature columns and `price`. -/
def demo2 : DataFrame :=
  ⟨["c1", "c2", "c3", "c4", "c5", "c6", "c7", "c8", "c9", "c10", "price"],
   [[1, 2, 3, 4, 5, 6, 7, 8, 9, 10, 100],
    [11, 12, 13, 14, 15, 16, 17, 18, 19, 20, 200]]⟩

/-- The train-side feature matrix `preprocess_data` yields on `demo2`. -/
def demo2Xtrain : DataFrame :=
  ⟨canonicalNames, [[11, 12, 13, 14, 15, 16, 17, 18, 19, 20]]⟩

/-- The test-side feature matrix `preprocess_data` yields on `demo2`. -/
def demo2Xtest : DataFrame :=
  ⟨canonicalNames, [[1, 2, 3, 4, 5, 6, 7, 8, 9, 10]]⟩

/-- A dataset with no `price` column. -/
def demoNoPrice : DataFrame :=
  ⟨["c1", "c2", "c3"], [[1, 2, 3], [4, 5, 6]]⟩

/-- A dataset with `price` but only three feature columns. -/
def demoThreeFeatures : DataFrame :=
  ⟨["c1", "c2", "c3", "price"], [[1, 2, 3, 50], [4, 5, 6, 60]]⟩

/-- The artifact path the entry point passes to `log_model`. -/
def demoArtifactPath : String := "housing-prices-estimator"

/-- The registry name the entry point passes to `log_model`. -/
def demoModelName : String := "housing-prices-estimator-LR"

/-! ### The claims -/

/-- C1: for every fitted model, feature matrix, non-empty artifact path and
non-empty registered model name, `log_model` returns normally whatever the
prediction and tracking-client calls do after argument validation: a raised
exception is caught and reported as exactly the corresponding printed
warning, and never propagates to the caller. -/
theorem log_model_never_raises (model : GridSearchCV) (X : DataFrame)
    (ap rmn : String) (po : Except PyExc (List Int))
    (lo : List Int → Except PyExc Unit)
    (hap : ap ≠ "") (hrm : rmn ≠ "") :
    log_model model X ap rmn po lo =
      .ok (match po with
           | .error e => [warnMessage e]
           | .ok preds =>
             match lo preds with
             | .error e => [warnMessage e]
             | .ok _ => []) := by
  unfold log_model
  rw [if_neg (by simp [hap, hrm])]
  cases po with
  | error e => rfl
  | ok preds => cases h : lo preds <;> simp [h]

/-- C1 witness: a concrete fitted model against a tracking client that
always fails; `log_model` returns normally and the warning is observable. -/
theorem log_model_never_raises_witness :
    log_model ⟨create_pipeline, [], 3, "r2", true⟩ demo2Xtrain
        demoArtifactPath demoModelName (.ok [150])
        (fun _ => .error (.mlflowException ("tracking service down"))) =
      .ok [warnMessage (.mlflowException ("tracking service down"))] :=
  log_model_never_raises _ _ _ _ _ _ (by decide) (by decide)

/-- C2: on any dataset in which the column `price` is absent,
`preprocess_data` fails with the schema error; no split is produced. -/
theorem preprocess_missing_price_schemaError (d : DataFrame)
    (h : target_variable ∉ d.cols) :
    preprocess_data d = .error .schemaError := by
  unfold preprocess_data
  rw [if_neg h]

/-- C2 witness: a 3-column dataset without `price`. -/
theorem preprocess_missing_price_schemaError_witness :
    preprocess_data demoNoPrice = .error .schemaError :=
  preprocess_missing_price_schemaError demoNoPrice (by decide)

/-- C3: on every exit path of `load_data` — missing or empty configuration,
successful query, or connection/query/loader failure — the engine is
released by the time the call returns: the final engine state is not
acquired, and an engine-creation event in the trace is always matched by a
dispose event. -/
theorem load_data_releases_engine (u : Option String)
    (q : Except String DataFrame) (dd : Except String Unit) :
    ((load_data u q dd).2.1).acquired = false ∧
    ((load_data u q dd).2.2.contains LoadEvent.engineCreated = false ∨
     (load_data u q dd).2.2.contains LoadEvent.disposed = true) := by
  unfold load_data
  cases u with
  | none => simp
  | some s =>
    by_cases hs : s = ""
    · simp [hs, createEngine, disposeEngine]
    · cases q <;> simp [hs, createEngine, disposeEngine]

/-- C9: `load_data` fails with the configuration error both when `DB_URI`
is unset and when it is the empty string, in both cases before any engine
is created (empty resource trace, engine never acquired). -/
theorem load_data_unset_or_empty_uri (u : Option String)
    (q : Except String DataFrame) (dd : Except String Unit)
    (h : u = none ∨ u = some ("")) :
    load_data u q dd = (.error .configurationError, ⟨false⟩, []) := by
  rcases h with h | h <;> subst h <;> rfl

/-- C9 witness at the empty connection string. -/
theorem load_data_unset_or_empty_uri_witness :
    load_data (some ("")) (.error ("unreached")) (.ok ()) =
      (.error .configurationError, ⟨false⟩, []) :=
  load_data_unset_or_empty_uri _ _ _ (Or.inr rfl)

/-- C4 is false as stated: the split takes `ceil(0.2 * N)` test rows, not
the integer nearest to `0.2 * N`.  On the valid 2-row dataset `demo2` the
returned test partition has one row, while the integer nearest to
`0.2 * 2 = 0.4` is zero. -/
theorem test_size_nearest_counterexample :
    preprocess_data demo2 = .ok (demo2Xtrain, demo2Xtest, [200], [100]) ∧
    demo2Xtest.rows.length = 1 ∧
    nearestFifth demo2.rows.length = 0 ∧
    demo2Xtest.rows.length ≠ nearestFifth demo2.rows.length := by
  refine ⟨by decide, by decide, by decide, by decide⟩

/-- C4 amended: for every dataset on which `preprocess_data` returns, the
test partition has exactly `ceil(0.2 * N)` rows, where `N` is the number
of dataset rows — rounding up, not to nearest. -/
theorem test_size_ceil (d : DataFrame) (xtr xte : DataFrame)
    (ytr yte : List Int)
    (h : preprocess_data d = .ok (xtr, xte, ytr, yte)) :
    xte.rows.length = nTest d.rows.length := by
  obtain ⟨-, -, hlt, hr⟩ := preprocess_data_ok_elim h
  have hxte : xte = selectRows (featFrame d) (testIdx d) :=
    congrArg (fun t => t.2.1) hr
  rw [hxte]
  simp only [selectRows, testIdx, List.length_map, List.length_take,
    splitPerm_length]
  omega

/-- C4 witness on `demo2`: two rows give `ceil(0.4) = 1` test row. -/
theorem test_size_ceil_witness :
    demo2Xtest.rows.length = nTest demo2.rows.length :=
  test_size_ceil demo2 demo2Xtrain demo2Xtest [200] [100] (by decide)

/-- C5: `preprocess_data` is deterministic — with the seed fixed at 3 its
outcome is a function of the input dataset alone, so two calls on the
identical dataset yield identical train/test row assignments. -/
theorem preprocess_deterministic (d : DataFrame)
    (r1 r2 : Except MLError (DataFrame × DataFrame × List Int × List Int))
    (h1 : preprocess_data d = r1) (h2 : preprocess_data d = r2) :
    r1 = r2 := by
  rw [← h1, ← h2]

/-- C5 witness: two calls on `demo2` agree. -/
theorem preprocess_deterministic_witness :
    preprocess_data demo2 = preprocess_data demo2 :=
  preprocess_deterministic demo2 _ _ rfl rfl

/-- C6: whenever `preprocess_data` returns, the partition sizes add up to
the dataset size, matrix and vector partitions agree in length on both
sides, and each feature row stays paired with the price of the same
original record: both partitions are maps over one and the same list of
original row positions. -/
theorem row_alignment (d : DataFrame) (xtr xte : DataFrame)
    (ytr yte : List Int)
    (h : preprocess_data d = .ok (xtr, xte, ytr, yte)) :
    xtr.rows.length + xte.rows.length = d.rows.length ∧
    xtr.rows.length = ytr.length ∧
    xte.rows.length = yte.length ∧
    xtr.rows.zip ytr = (trainIdx d).map
      (fun i => ((dropCol d target_variable).rows.getD i [],
                 (getCol d target_variable).getD i 0)) ∧
    xte.rows.zip yte = (testIdx d).map
      (fun i => ((dropCol d target_variable).rows.getD i [],
                 (getCol d target_variable).getD i 0)) := by
  obtain ⟨-, -, hlt, hr⟩ := preprocess_data_ok_elim h
  have hxtr : xtr = selectRows (featFrame d) (trainIdx d) :=
    congrArg (fun t => t.1) hr
  have hxte : xte = selectRows (featFrame d) (testIdx d) :=
    congrArg (fun t => t.2.1) hr
  have hytr : ytr = selectVals (getCol d target_variable) (trainIdx d) :=
    congrArg (fun t => t.2.2.1) hr
  have hyte : yte = selectVals (getCol d target_variable) (testIdx d) :=
    congrArg (fun t => t.2.2.2) hr
  subst hxtr hxte hytr hyte
  refine ⟨?_, ?_, ?_, ?_, ?_⟩
  · simp only [selectRows, trainIdx, testIdx, List.length_map,
      List.length_drop, List.length_take, splitPerm_length]
    omega
  · simp [selectRows, selectVals]
  · simp [selectRows, selectVals]
  · simp [selectRows, selectVals, featFrame, List.zip_map']
  · simp [selectRows, selectVals, featFrame, List.zip_map']

/-- C6 witness on `demo2`: one train row plus one test row is the whole
2-row dataset. -/
theorem row_alignment_witness :
    demo2Xtrain.rows.length + demo2Xtest.rows.length = demo2.rows.length :=
  (row_alignment demo2 demo2Xtrain demo2Xtest [200] [100] (by decide)).1

/-- C7: `train_model` with a `param_grid` that is not a dict fails with
the invalid-argument error, returns the caller's pipeline exactly as it
was, and records neither a grid-search construction nor a fit attempt. -/
theorem train_model_rejects_non_dict (p : Pipeline) (X : DataFrame)
    (y : List Int) (g : PyVal) (cv : Nat) (fo : Except String Unit)
    (h : g.isDict = false) :
    train_model p X y g cv fo = (.error .invalidArgument, p, []) := by
  cases g with
  | dict entries => simp [PyVal.isDict] at h
  | str s => rfl
  | pyNone => rfl

/-- The non-dict grid from the spec's argument-validation scenario. -/
def notADict : String := "not-a-dict"

/-- C7 witness: the string grid from the spec's test leaves
`create_pipeline`'s result untouched. -/
theorem train_model_rejects_non_dict_witness :
    train_model create_pipeline demo2Xtrain [200] (PyVal.str notADict) 3
        (.ok ()) = (.error .invalidArgument, create_pipeline, []) :=
  train_model_rejects_non_dict _ _ _ _ _ _ (by decide)

/-- C8: with `price` present, `preprocess_data` fails with the schema
error whenever the number of remaining feature columns differs from ten,
and whenever it returns, both feature partitions carry exactly the ten
canonical names, assigned positionally. -/
theorem canonical_rename_or_schemaError (d : DataFrame)
    (hp : target_variable ∈ d.cols) :
    ((dropCol d target_variable).cols.length ≠ 10 →
      preprocess_data d = .error .schemaError) ∧
    ∀ xtr xte : DataFrame, ∀ ytr yte : List Int,
      preprocess_data d = .ok (xtr, xte, ytr, yte) →
        xtr.cols = canonicalNames ∧ xte.cols = canonicalNames := by
  constructor
  · intro hne
    unfold preprocess_data
    rw [if_pos hp]
    have hax : set_axis (dropCol d target_variable) canonicalNames = none := by
      unfold set_axis
      rw [if_neg ?_]
      have h10 : canonicalNames.length = 10 := rfl
      rw [h10]
      exact fun hh => hne hh.symm
    rw [hax]
  · intro xtr xte ytr yte h
    obtain ⟨-, -, -, hr⟩ := preprocess_data_ok_elim h
    have hxtr : xtr = selectRows (featFrame d) (trainIdx d) :=
      congrArg (fun t => t.1) hr
    have hxte : xte = selectRows (featFrame d) (testIdx d) :=
      congrArg (fun t => t.2.1) hr
    exact ⟨by rw [hxtr]; rfl, by rw [hxte]; rfl⟩

/-- C8 witness: `price` plus three feature columns is rejected with the
schema error. -/
theorem canonical_rename_or_schemaError_witness :
    preprocess_data demoThreeFeatures = .error .schemaError :=
  (canonical_rename_or_schemaError demoThreeFeatures (by decide)).1 (by decide)

/-- C10: `preprocess_data` never mutates its input: threading the dataset
object through every operation of the call returns it unchanged on every
path, while producing the same result as `preprocess_data`. -/
theorem preprocess_no_mutation (d : DataFrame) :
    (preprocess_data_tracked d).2 = d ∧
    (preprocess_data_tracked d).1 = preprocess_data d := by
  by_cases hmem : target_variable ∈ d.cols
  · cases hax : set_axis (dropCol d target_variable) canonicalNames with
    | none =>
      constructor
      · simp [preprocess_data_tracked, hmem, dropColTracked, setAxisTracked,
          getColTracked, hax]
      · simp [preprocess_data_tracked, preprocess_data, hmem, dropColTracked,
          setAxisTracked, getColTracked, hax]
    | some X2 =>
      constructor
      · simp [preprocess_data_tracked, hmem, dropColTracked, setAxisTracked,
          getColTracked, hax]
      · simp [preprocess_data_tracked, preprocess_data, hmem, dropColTracked,
          setAxisTracked, getColTracked, hax]
  · constructor
    · simp [preprocess_data_tracked, hmem]
    · simp [preprocess_data_tracked, preprocess_data, hmem]
